import Mathlib

/-!
Formal development for the statistical-analysis workbench: a shallow
embedding of its pandas-backed dataframe operations and of the
controller / core routines (hypothesis-test dispatcher, linear-regression
controller and core, descriptive-statistics controller, and the
tabular-rounding check), with theorems about their validation, routing,
filtering, rounding and plotting behaviour.

Conventions of the embedding:
* Python floats are modelled as rationals (`ℚ`); `float(text)` is
  modelled by `pyFloat`, which accepts the decimal / exponent forms
  relevant here (it omits exotic forms such as `inf`, `nan`, hex and
  digit-group underscores).
* A raised exception is modelled as `Except.error` carrying the message;
  a normal return as `Except.ok`.
* pandas dataframes are column-major lists of named, equal-length
  columns of cells; a cell is missing (`NaN`/`None`), numeric, or a
  string.
-/

set_option linter.unusedVariables false
set_option linter.unreachableTactic false
set_option linter.unusedTactic false
set_option allowUnsafeReducibility true
attribute [local semireducible] Rat.mul Rat.inv Rat.add Rat.sub Rat.div Rat.neg Rat.ofScientific

deriving instance DecidableEq for Except

namespace Thotsakan

/-- One dataframe cell: missing (NaN/None), numeric, or string-valued. -/
inductive Cell where
  | na : Cell
  | num : ℚ → Cell
  | str : String → Cell
deriving DecidableEq

/-- Column-major dataframe: named columns, all of the same length in a
well-formed frame. -/
structure DataFrame where
  cols : List (String × List Cell)
deriving DecidableEq

/-- Association-list lookup of a column by name (first match wins, as in
pandas column selection on unique labels). -/
def lookupCol : List (String × List Cell) → String → Option (List Cell)
  | [], _ => none
  | (n, cs) :: rest, name => if n = name then some cs else lookupCol rest name

def DataFrame.col? (df : DataFrame) (name : String) : Option (List Cell) :=
  lookupCol df.cols name

def DataFrame.colD (df : DataFrame) (name : String) : List Cell :=
  (df.col? name).getD []

def DataFrame.columns (df : DataFrame) : List String := df.cols.map Prod.fst

def DataFrame.nrows (df : DataFrame) : Nat :=
  match df.cols with
  | [] => 0
  | (_, cs) :: _ => cs.length

/-- pandas `df.empty`: true when either axis has length zero. -/
def DataFrame.empty (df : DataFrame) : Bool :=
  df.cols.isEmpty || df.nrows == 0

/-- Keep the elements whose mask entry is `true` (pandas boolean-mask
row selection). -/
def maskFilter {α : Type} : List α → List Bool → List α
  | [], _ => []
  | _ :: _, [] => []
  | a :: as, b :: bs => if b then a :: maskFilter as bs else maskFilter as bs

/-- pandas `df[mask]`: keep the rows whose mask entry is `true`. -/
def DataFrame.filterRows (df : DataFrame) (mask : List Bool) : DataFrame :=
  ⟨df.cols.map (fun p => (p.1, maskFilter p.2 mask))⟩

/-- pandas `df[[c1, c2, ...]]`: keep the named columns, in the given
order. -/
def DataFrame.select (df : DataFrame) (names : List String) : DataFrame :=
  ⟨names.filterMap (fun n => (df.col? n).map (fun cs => (n, cs)))⟩

def Cell.isNa : Cell → Bool
  | .na => true
  | _ => false

def Cell.isNum : Cell → Bool
  | .num _ => true
  | _ => false

/-- Row mask that is `true` exactly on the rows with no missing cell in
any column (the rows pandas `df.dropna()` keeps). -/
def DataFrame.naMask (df : DataFrame) : List Bool :=
  df.cols.foldr (fun p acc => List.zipWith (fun c b => !c.isNa && b) p.2 acc)
    (List.replicate df.nrows true)

/-- pandas `df.dropna()`: drop every row containing a missing value. -/
def DataFrame.dropnaRows (df : DataFrame) : DataFrame :=
  df.filterRows df.naMask

/-- pandas `series.dropna()`. -/
def seriesDropna (cells : List Cell) : List Cell :=
  cells.filter (fun c => !c.isNa)

/-- Numeric values of a series (`series.to_numpy()` on numeric data). -/
def toNums (cells : List Cell) : List ℚ :=
  cells.filterMap (fun c => match c with | .num q => some q | _ => none)

/-- pandas column dtype, reduced to the distinction the code depends on:
numeric versus object. -/
inductive Dtype where
  | numeric : Dtype
  | object : Dtype
deriving DecidableEq

/-- Infer a column's dtype: numeric when every cell is a number or
missing (pandas stores such columns as float64), object otherwise. -/
def dtypeOf (cells : List Cell) : Dtype :=
  if cells.all (fun c => c.isNa || c.isNum) then .numeric else .object

/-- Python `str.strip()` whitespace test. -/
def pyWS (c : Char) : Bool :=
  c = ' ' || c = '\t' || c = '\n' || c = '\r' || c = '\x0b' || c = '\x0c'

/-- Python `str.strip()`. -/
def pyStrip (s : String) : String :=
  String.mk (((s.data.dropWhile pyWS).reverse.dropWhile pyWS).reverse)

/-- Split a string on a separator character, keeping empty pieces, as
Python `str.split(sep)` does. -/
def splitChars (sep : Char) : List Char → List (List Char)
  | [] => [[]]
  | c :: cs =>
    let r := splitChars sep cs
    if c = sep then [] :: r
    else
      match r with
      | [] => [[c]]
      | g :: gs => (c :: g) :: gs

def pySplitOn (s : String) (sep : Char) : List String :=
  (splitChars sep s.data).map String.mk

def digitsVal (ds : List Char) : ℕ :=
  ds.foldl (fun a c => a * 10 + (c.toNat - 48)) 0

/-- Longest digit run at the head of the character list, and the rest. -/
def takeDigits : List Char → List Char × List Char
  | [] => ([], [])
  | c :: cs =>
    if c.isDigit then
      let p := takeDigits cs
      (c :: p.1, p.2)
    else ([], c :: cs)

/-- Mantissa of a Python float literal: digits, optionally with a single
decimal point; at least one digit overall. -/
def parseMantissa (cs : List Char) : Option (ℚ × List Char) :=
  let p := takeDigits cs
  match p.2 with
  | '.' :: r2 =>
    let q := takeDigits r2
    if p.1.isEmpty && q.1.isEmpty then none
    else some ((digitsVal p.1 : ℚ) + (digitsVal q.1 : ℚ) / (10 : ℚ) ^ q.1.length, q.2)
  | _ => if p.1.isEmpty then none else some ((digitsVal p.1 : ℚ), p.2)

def parseSign : List Char → ℚ × List Char
  | '+' :: r => (1, r)
  | '-' :: r => (-1, r)
  | r => (1, r)

def parseExpBody (cs : List Char) : Option (ℤ × List Char) :=
  let sp : ℤ × List Char :=
    match cs with
    | '+' :: r => (1, r)
    | '-' :: r => (-1, r)
    | r => (1, r)
  let d := takeDigits sp.2
  if d.1.isEmpty then none else some (sp.1 * (digitsVal d.1 : ℤ), d.2)

def parseExponent : List Char → Option (ℤ × List Char)
  | 'e' :: r => parseExpBody r
  | 'E' :: r => parseExpBody r
  | cs => some (0, cs)

/-- Python `float(text)` on the forms used by this program: optional
surrounding whitespace and sign, decimal digits with an optional point,
and an optional exponent. Returns `none` where `float` raises
`ValueError`. -/
def pyFloat (s : String) : Option ℚ :=
  let cs := (pyStrip s).data
  let sg := parseSign cs
  match parseMantissa sg.2 with
  | none => none
  | some (v, rest) =>
    match parseExponent rest with
    | none => none
    | some (e, rest2) =>
      if rest2.isEmpty then some (sg.1 * v * (10 : ℚ) ^ e) else none

/-- Floor of a rational, written directly on the normalized fraction so
that concrete evaluation stays in basic integer arithmetic. -/
def ratFloor (q : ℚ) : ℤ := q.num.fdiv (q.den : ℤ)

/-- Round-half-to-even to an integer, the rule used by numpy/pandas
rounding. -/
def roundHalfEven (q : ℚ) : ℤ :=
  let f := ratFloor q
  let r := q - (f : ℚ)
  if r < 1 / 2 then f
  else if 1 / 2 < r then f + 1
  else if f % 2 = 0 then f else f + 1

/-- pandas `.round(n)`: round-half-to-even at `n` decimal places. -/
def roundTo (n : ℕ) (q : ℚ) : ℚ :=
  (roundHalfEven (q * (10 : ℚ) ^ n) : ℚ) / (10 : ℚ) ^ n

/-- numpy `linspace(lo, hi, num)`: `num` evenly spaced points from `lo`
to `hi` inclusive. -/
def npLinspace (lo hi : ℚ) (num : Nat) : List ℚ :=
  (List.range num).map (fun (i : ℕ) => lo + (hi - lo) * (i : ℚ) / ((num : ℚ) - 1))

/-- Integer square root by bounded search; used only as the rational
stand-in `ratSqrtApprox` for the real square root, whose exact value is
irrational in general and plays no role in any claim settled here. -/
def natSqrtLin (n : ℕ) : ℕ :=
  ((List.range (n + 1)).filter (fun k => decide (k * k ≤ n))).foldr Nat.max 0

def ratSqrtApprox (q : ℚ) : ℚ :=
  ((natSqrtLin q.num.toNat : ℤ) : ℚ) / (natSqrtLin q.den : ℚ)

/-- The mutable session object, reduced to the only field the embedded
routines read: the display precision. -/
structure AppState where
  display_precision : ℕ
deriving DecidableEq

/-! ## Linear regression (`core/linear_regression.py`,
`controllers/linear_regression_controller.py`)

The statsmodels library is external to the repository; a fitted model
and the tables derived from it are embedded as records of the call that
produced them (the data and formula or design matrix that determine the
fit, and the significance level), which is exactly the information the
library call is a function of. -/

/-- A fitted statsmodels model: `smf.ols(data, formula).fit()` or
`sm.OLS(y, X).fit()`, recorded by its determining inputs. -/
inductive RegModel where
  | formula (data : DataFrame) (formulaText : String)
  | ols (y : List Cell) (X : DataFrame)
deriving DecidableEq

/-- `model.get_prediction(xpred).summary_frame(alpha)`; `xpred = none`
records a `get_prediction()` call on the training data. -/
structure PredTable where
  model : RegModel
  xpred : Option DataFrame
  alpha : ℚ
deriving DecidableEq

/-- `model.summary2(alpha).as_html()`. -/
structure RegSummary where
  model : RegModel
  alpha : ℚ
deriving DecidableEq

/-- The coefficient table (second table of `summary2(alpha)`), with the
index reset into a `Variable` column. -/
structure ParamsTable where
  model : RegModel
  alpha : ℚ
deriving DecidableEq

/-- `params_df.round(precision)` applied by the controller to the
library-computed coefficient table: the rounding operation is recorded
together with the full-precision table it was applied to. -/
structure RoundedParams where
  table : ParamsTable
  precision : ℕ
deriving DecidableEq

/-- A diagnostic figure, recorded by the data series drawn on it. -/
inductive RegFigure where
  | simple (data : DataFrame) (x y : String) (xPlot : List ℚ) (pred : PredTable)
      (showCI showPI : Bool) (title : String)
  | observedVsPredicted (data : DataFrame) (y : String) (pred : PredTable)
deriving DecidableEq

/-- The x values at which the regression line and bands of a Simple
Regression figure are drawn. -/
def RegFigure.xPlotOf : RegFigure → List ℚ
  | .simple _ _ _ xs _ _ _ _ => xs
  | .observedVsPredicted _ _ _ => []

/-- `sm.add_constant`: prepend a `const` column of ones. (The library
skips the insertion when a constant column is already present; that
corner is never reached by the embedded call sites, which build `X_pred`
from a single covariate column.) -/
def add_constant (X : DataFrame) : DataFrame :=
  ⟨("const", List.replicate X.nrows (Cell.num 1)) :: X.cols⟩

/-- `plot_simple_regression` from `core/linear_regression.py`. In
fit-to-observations mode the source sorts the NaN-free `[x, y]` rows by
`x` and predicts at the `x` column of the result; since only the sorted
`x` values flow into `x_plot` and `X_pred`, that column is embedded
directly as the sorted list of the observed `x` values. -/
def plot_simple_regression (data : DataFrame) (x y : String)
    (intercept use_formula : Bool) (formula_latex : String) (model : RegModel)
    (alpha : ℚ) (show_ci show_pi fit_to_obs : Bool)
    (x_vector : Option (List ℚ)) : Except String RegFigure :=
  match (if fit_to_obs then
      .ok (List.insertionSort (· ≤ ·) (toNums (((data.select [x, y]).dropnaRows).colD x)))
    else
      match x_vector with
      | none => .error "x_vector must be provided when 'fit_to_obs' is False."
      | some v => .ok v : Except String (List ℚ)) with
  | .error e => .error e
  | .ok x_plot =>
    let xp0 : DataFrame := ⟨[(x, x_plot.map Cell.num)]⟩
    let X_pred := if !use_formula && intercept then add_constant xp0 else xp0
    let pred : PredTable := ⟨model, some X_pred, alpha⟩
    let title :=
      if use_formula ∧ formula_latex ≠ "" then
        "Linear Regression: $" ++ formula_latex ++ "$"
      else "Linear Regression: " ++ y ++ " ~ " ++ x
    .ok (.simple data x y x_plot pred show_ci show_pi title)

/-- `plot_observed_vs_predicted` from `core/linear_regression.py`. -/
def plot_observed_vs_predicted (data : DataFrame) (y : String)
    (model : RegModel) (alpha : ℚ) : RegFigure :=
  .observedVsPredicted data y ⟨model, none, alpha⟩

/-- `run_linear_regression` from `core/linear_regression.py`. -/
def run_linear_regression_core (df : DataFrame) (formula_check : Bool)
    (formula_text formula_latex : String) (dependent_var : String)
    (independent_vars : List String) (alpha : ℚ) (intercept : Bool)
    (create_graph : Bool) (graph_type : String)
    (show_ci show_pi fit_to_obs : Bool) (x_vector : Option (List ℚ)) :
    Except String (RegSummary × ParamsTable × Option RegFigure) :=
  if df.empty then .error "No dataset loaded."
  else if dependent_var ∉ df.columns then .error "Invalid dependent variable selection."
  else if ¬ independent_vars.all (fun c => decide (c ∈ df.columns)) then
    .error "Invalid independent variable."
  else if independent_vars.isEmpty then .error "At least one independent variable is required."
  else
    let data := (df.select (dependent_var :: independent_vars)).dropnaRows
    if data.empty then .error "No valid rows remaining after dropping missing values."
    else
      let y := data.colD dependent_var
      let X := data.select independent_vars
      match (if formula_check then
          if formula_text = "" then .error "Formula is enabled but no formula text was provided."
          else .ok (.formula data formula_text, true)
        else
          .ok (.ols y (if intercept then add_constant X else X), false) :
          Except String (RegModel × Bool)) with
      | .error e => .error e
      | .ok (model, use_formula) =>
        let summary : RegSummary := ⟨model, alpha⟩
        let params : ParamsTable := ⟨model, alpha⟩
        if create_graph then
          if graph_type = "Simple Regression" then
            if independent_vars.length ≠ 1 then
              .error "Simple Regression graph is only available with exactly one independent variable."
            else
              match plot_simple_regression data (independent_vars.headD "") dependent_var
                  intercept use_formula formula_latex model alpha
                  show_ci show_pi fit_to_obs x_vector with
              | .error e => .error e
              | .ok fig => .ok (summary, params, some fig)
          else if graph_type = "Observed vs Predicted" then
            .ok (summary, params, some (plot_observed_vs_predicted data dependent_var model alpha))
          else .error ("Unknown graph type: " ++ graph_type)
        else .ok (summary, params, none)

/-- Raw inputs of the Linear Regression tab's controller. -/
structure RegArgs where
  df : Option DataFrame
  filtered_df : Option DataFrame
  formula_check : Bool
  formula_text : String
  formula_latex : String
  dependent_var : Option String
  independent_vars : List String
  alpha_input : String
  intercept : Bool
  graph_check : Bool
  graph_type : String
  show_ci : Bool
  show_pi : Bool
  fit_to_obs : Bool
  x_range_text : String
deriving DecidableEq

/-- `_select_working_dataframe` from
`controllers/linear_regression_controller.py`. -/
def _select_working_dataframe :
    Option DataFrame → Option DataFrame → Except String DataFrame
  | none, _ => .error "No dataset loaded."
  | some d, some f =>
    if f.empty then
      if d.empty then .error "The dataset is empty." else .ok d
    else .ok f
  | some d, none =>
    if d.empty then .error "The dataset is empty." else .ok d

/-- `_parse_confidence_level` from
`controllers/linear_regression_controller.py`. (`float` strips
surrounding whitespace itself, so applying `pyFloat` to the raw text is
equivalent to applying it to the stripped text.) -/
def _parse_confidence_level (text : String) : Except String ℚ :=
  if pyStrip text = "" then .error "Confidence level is required (e.g. 0.95)."
  else
    match pyFloat text with
    | none => .error "Confidence level must be a numeric value between 0 and 1."
    | some level =>
      if 0 < level ∧ level < 1 then .ok (1 - level)
      else .error "Confidence level must be between 0 and 1 (e.g. 0.95)."

/-- `_parse_range` from `controllers/linear_regression_controller.py`.
The parts of the split are stripped before `float` in the source;
`pyFloat` strips internally. -/
def _parse_range (text : String) : Except String (Option (List ℚ)) :=
  if pyStrip text = "" then .ok none
  else
    match pySplitOn (pyStrip text) ',' with
    | [a, b] =>
      match pyFloat a, pyFloat b with
      | some lo, some hi =>
        if lo ≥ hi then .error "Range minimum must be strictly less than the maximum."
        else .ok (some (npLinspace lo hi 100))
      | _, _ => .error "Range values must be numeric (e.g. '0, 10')."
    | _ => .error "Range must have the form 'min, max'."

/-- `run_linear_regression` from
`controllers/linear_regression_controller.py`. -/
def run_linear_regression (state : AppState) (args : RegArgs) :
    Except String (RegSummary × RoundedParams × Option RegFigure) :=
  match _select_working_dataframe args.df args.filtered_df with
  | .error e => .error e
  | .ok working_df =>
    if args.dependent_var.getD "" = "" then .error "Please select a dependent variable."
    else if args.independent_vars.isEmpty then
      .error "Please select at least one independent variable."
    else if args.graph_check ∧ args.graph_type = "Simple Regression" ∧
        args.independent_vars.length ≠ 1 then
      .error "The 'Simple Regression' graph is only available when exactly one independent variable is selected."
    else
      match _parse_confidence_level args.alpha_input with
      | .error e => .error e
      | .ok alpha =>
        match (if args.graph_check ∧ args.graph_type = "Simple Regression" ∧
              args.fit_to_obs = false then
            _parse_range args.x_range_text
          else .ok none : Except String (Option (List ℚ))) with
        | .error e => .error e
        | .ok x_vector =>
          match run_linear_regression_core working_df args.formula_check
              args.formula_text args.formula_latex (args.dependent_var.getD "")
              args.independent_vars alpha args.intercept args.graph_check
              args.graph_type args.show_ci args.show_pi args.fit_to_obs x_vector with
          | .error e => .error e
          | .ok (summary, params, fig) =>
            .ok (summary, ⟨params, state.display_precision⟩, fig)

/-! ## Hypothesis testing (`controllers/hypothesis_controller.py`)

The four core test routines live in `core/hypothesis_tests.py`, which is
not part of the available sources; they are modelled from the spec below.
The controller-side validation, group materialization and routing are
embedded from the source. -/

/-- `pd.Series(values).astype(dtype)` for one value: identity on an
object column, numeric parsing on a numeric column (`astype` raises on
an unparsable string). -/
def castVal : Dtype → String → Except String Cell
  | .object, s => .ok (.str s)
  | .numeric, s =>
    match pyFloat s with
    | some q => .ok (.num q)
    | none => .error ("could not convert string to float: '" ++ s ++ "'")

/-- `pd.Series(values).astype(df[cat_col].dtype)`: cast the selected
category values to the dtype of the categorical column. -/
def castSeries (d : Dtype) (vals : List String) : Except String (List Cell) :=
  vals.mapM (castVal d)

/-- The four hypothesis-test routines of `core/hypothesis_tests.py`. -/
inductive TestTag where
  | oneSampleT : TestTag
  | twoSampleT : TestTag
  | varianceEq : TestTag
  | anova : TestTag
deriving DecidableEq

/-- The validated inputs a test routine was run on; the constructor
identifies the routine. -/
inductive HypoPayload where
  | oneSample (sample : List ℚ) (mu0 : ℚ) (alternative : String)
  | twoSample (g1 g2 : List ℚ) (alternative : String) (correction : Bool)
  | varianceEq (g1 g2 : List ℚ) (testType : String)
  | anova (groups : List (Cell × List ℚ))
deriving DecidableEq

def HypoPayload.tag : HypoPayload → TestTag
  | .oneSample _ _ _ => .oneSampleT
  | .twoSample _ _ _ _ => .twoSampleT
  | .varianceEq _ _ _ => .varianceEq
  | .anova _ => .anova

/-- A Hypothesis Test Result: the routine's payload plus its numeric
result table (row label, value). -/
structure HypoResult where
  payload : HypoPayload
  table : List (String × ℚ)
deriving DecidableEq

/-- Modelled from the spec: `one_sample_ttest` of the absent
`core/hypothesis_tests.py` — inputs a sample and null mean μ₀ and the
chosen alternative, and returns a Hypothesis Test Result. The payload
records the validated inputs; the table records the exactly computable
summary entries (the t statistic and p-value require the irrational t
distribution and are not at issue in any claim settled against this
model). -/
def one_sample_ttest (sample : List Cell) (mu0 : ℚ) (alternative : String)
    (numeric_col : String) (bootstrap_samples : Nat) (include_graph : Bool) :
    HypoResult :=
  let xs := toNums sample
  { payload := .oneSample xs mu0 alternative
    table := [("n", (xs.length : ℚ)), ("mu0", mu0)] }

/-- Modelled from the spec: `two_sample_ttest` of the absent
`core/hypothesis_tests.py` — inputs two independently filtered groups
and an alternative, with a Welch-correction toggle, and returns a
Hypothesis Test Result (payload and exactly computable table entries,
as in `one_sample_ttest`). -/
def two_sample_ttest (group1 group2 : List Cell) (numeric_col : String)
    (name_group1 name_group2 alternative : String) (correction : Bool)
    (plot_type : String) (bootstrap_samples : Nat) (include_graph : Bool) :
    HypoResult :=
  let xs1 := toNums group1
  let xs2 := toNums group2
  { payload := .twoSample xs1 xs2 alternative correction
    table := [("n1", (xs1.length : ℚ)), ("n2", (xs2.length : ℚ))] }

/-- Modelled from the spec: `variance_test` of the absent
`core/hypothesis_tests.py` — Bartlett or Levene selected by `test_type`
on two non-empty groups (payload and exactly computable table entries,
as in `one_sample_ttest`). -/
def variance_test (group1 group2 : List Cell)
    (name_group1 name_group2 test_type : String)
    (include_graph : Bool) (bootstrap_samples : Nat) : HypoResult :=
  let xs1 := toNums group1
  let xs2 := toNums group2
  { payload := .varianceEq xs1 xs2 test_type
    table := [("n1", (xs1.length : ℚ)), ("n2", (xs2.length : ℚ))] }

/-- Modelled from the spec: `one_way_anova` of the absent
`core/hypothesis_tests.py` — inputs the filtered `[numeric, categorical]`
rows, groups them by the categorical level, and fails with
`InsufficientGroups` when fewer than two distinct non-empty groups
remain. -/
def one_way_anova (data_group : DataFrame) (numeric_col cat_col : String) :
    Except String HypoResult :=
  let cats := data_group.colD cat_col
  let nums := data_group.colD numeric_col
  let levels := cats.dedup
  if levels.length < 2 then
    .error "InsufficientGroups: at least two distinct non-empty groups are required for ANOVA."
  else
    .ok { payload := .anova (levels.map (fun v =>
            (v, toNums (maskFilter nums (cats.map (fun c => decide (c = v)))))))
          table := [("n_groups", (levels.length : ℚ))] }

/-- `_round_table` from `controllers/hypothesis_controller.py`: round the
numeric columns of the result table to the display precision. -/
def _round_table (table : List (String × ℚ)) (decimals : ℕ) : List (String × ℚ) :=
  table.map (fun r => (r.1, roundTo decimals r.2))

/-- `_ensure_numeric_series` from `controllers/hypothesis_controller.py`. -/
def _ensure_numeric_series (df : Option DataFrame) (column : String) :
    Except String (List Cell) :=
  match df with
  | none => .error "No dataset loaded."
  | some d =>
    if column ∉ d.columns then
      .error ("Column '" ++ column ++ "' not found in the dataset.")
    else
      let series := seriesDropna (d.colD column)
      if series.isEmpty then .error "No valid data in the selected column."
      else .ok series

/-- `_materialize_group` from `controllers/hypothesis_controller.py`. -/
def _materialize_group (df : DataFrame) (numeric_col : String)
    (cat_col : Option String) (cat_vals : Option (List String)) :
    Except String (List Cell) :=
  match cat_col with
  | none => .error "No categorical column selected."
  | some c =>
    if c ∉ df.columns then
      .error ("Categorical column '" ++ c ++ "' not found in the dataset.")
    else
      let values := cat_vals.getD []
      if values.isEmpty then
        .error ("No categories selected for column '" ++ c ++ "'.")
      else
        match castSeries (dtypeOf (df.colD c)) values with
        | .error e => .error e
        | .ok cat_series =>
          let mask := (df.colD c).map (fun v => decide (v ∈ cat_series))
          let series := seriesDropna (maskFilter (df.colD numeric_col) mask)
          if series.isEmpty then
            .error "One or more groups are empty after filtering."
          else .ok series

/-- Raw inputs of the Hypothesis Testing tab's dispatcher. -/
structure HypoArgs where
  df : Option DataFrame
  numeric_col : String
  hypo_test : String
  mu0_text : String
  alternative : String
  include_graph : Bool
  bootstrap_samples : Nat
  cat_col1 : Option String
  cat_vals1 : Option (List String)
  name_group1 : String
  cat_col2 : Option String
  cat_vals2 : Option (List String)
  name_group2 : String
  cat_col3 : Option String
  cat_vals3 : List String
  plot_type : String
  correction : Bool
  test_type : String
deriving DecidableEq

/-- The `data_group` built by the ANOVA branch of the dispatcher:
`df[df[cat_col3].isin(cat_series)][[numeric_col, cat_col3]].dropna()`. -/
def anovaDataGroup (df : DataFrame) (numeric_col cat_col : String)
    (cat_series : List Cell) : DataFrame :=
  ((df.filterRows ((df.colD cat_col).map (fun v => decide (v ∈ cat_series)))).select
    [numeric_col, cat_col]).dropnaRows

/-- `run_hypothesis_testing` from `controllers/hypothesis_controller.py`. -/
def run_hypothesis_testing (state : AppState) (args : HypoArgs) :
    Except String HypoResult :=
  match args.df with
  | none => .error "No dataset loaded."
  | some df =>
    match _ensure_numeric_series (some df) args.numeric_col with
    | .error e => .error e
    | .ok _ =>
      if args.hypo_test = "One sample Student's t-test" then
        if pyStrip args.mu0_text = "" then
          .error "mu_0 must be specified for the one-sample t-test."
        else
          match pyFloat args.mu0_text with
          | none => .error "mu_0 must be a numeric value."
          | some mu0 =>
            let sample := seriesDropna (df.colD args.numeric_col)
            let r := one_sample_ttest sample mu0 args.alternative args.numeric_col
              args.bootstrap_samples args.include_graph
            .ok { r with table := _round_table r.table state.display_precision }
      else if args.hypo_test = "Two samples Student's t-test" then
        match _materialize_group df args.numeric_col args.cat_col1 args.cat_vals1 with
        | .error e => .error e
        | .ok group1 =>
          match _materialize_group df args.numeric_col args.cat_col2 args.cat_vals2 with
          | .error e => .error e
          | .ok group2 =>
            let name1 := if args.name_group1 = "" then "Group 1" else args.name_group1
            let name2 := if args.name_group2 = "" then "Group 2" else args.name_group2
            let r := two_sample_ttest group1 group2 args.numeric_col name1 name2
              args.alternative args.correction args.plot_type
              args.bootstrap_samples args.include_graph
            .ok { r with table := _round_table r.table state.display_precision }
      else if args.hypo_test = "Equal variance between two groups" then
        match _materialize_group df args.numeric_col args.cat_col1 args.cat_vals1 with
        | .error e => .error e
        | .ok group1 =>
          match _materialize_group df args.numeric_col args.cat_col2 args.cat_vals2 with
          | .error e => .error e
          | .ok group2 =>
            let name1 := if args.name_group1 = "" then "Group 1" else args.name_group1
            let name2 := if args.name_group2 = "" then "Group 2" else args.name_group2
            let r := variance_test group1 group2 name1 name2 args.test_type
              args.include_graph args.bootstrap_samples
            .ok { r with table := _round_table r.table state.display_precision }
      else if args.hypo_test = "One-way ANOVA" then
        match args.cat_col3 with
        | none => .error "A categorical column must be selected for ANOVA."
        | some c3 =>
          if c3 ∉ df.columns then
            .error ("Categorical column '" ++ c3 ++ "' not found in the dataset.")
          else if args.cat_vals3.isEmpty then
            .error "At least one category must be selected for ANOVA."
          else
            match castSeries (dtypeOf (df.colD c3)) args.cat_vals3 with
            | .error e => .error e
            | .ok cat_series =>
              let data_group := anovaDataGroup df args.numeric_col c3 cat_series
              match one_way_anova data_group args.numeric_col c3 with
              | .error e => .error e
              | .ok r =>
                .ok { r with table := _round_table r.table state.display_precision }
      else .error ("Unknown hypothesis test: " ++ args.hypo_test)

/-- The routing table of the dispatcher: which routine a test-name
string selects. -/
def routeTag (name : String) : Option TestTag :=
  if name = "One sample Student's t-test" then some .oneSampleT
  else if name = "Two samples Student's t-test" then some .twoSampleT
  else if name = "Equal variance between two groups" then some .varianceEq
  else if name = "One-way ANOVA" then some .anova
  else none

/-! ## Descriptive statistics
(`controllers/estimation/descriptive_controller.py`)

The engine `core/estimation/descriptive.py` is not part of the available
sources; `compute_descriptive_statistics` is modelled from the spec. -/

/-- One row of the descriptive result table. -/
structure DescRow where
  label : String
  value : ℚ
  biasCorrected : ℚ
deriving DecidableEq

/-- Arithmetic mean (0 on an empty list, never reached through the
controller, which rejects empty data). -/
def qmean (xs : List ℚ) : ℚ := xs.sum / (xs.length : ℚ)

/-- Weighted mean Σ(wᵢxᵢ)/Σ(wᵢ). -/
def weightedMean (xs ws : List ℚ) : ℚ :=
  ((xs.zip ws).map (fun p => p.1 * p.2)).sum / ws.sum

/-- Variance with a degrees-of-freedom adjustment `ddof`. -/
def qvariance (xs : List ℚ) (ddof : ℕ) : ℚ :=
  let m := qmean xs
  (xs.map (fun x => (x - m) * (x - m))).sum / ((xs.length : ℚ) - (ddof : ℚ))

/-- Quantile of a sorted list at probability `p`, with linear
interpolation between order statistics at position `p * (n - 1)`. -/
def quantileLin (sorted : List ℚ) (p : ℚ) : ℚ :=
  let n := sorted.length
  let pos := p * ((n : ℚ) - 1)
  let i := (ratFloor pos).toNat
  if i + 1 < n then
    sorted.getD i 0 + (pos - (i : ℚ)) * (sorted.getD (i + 1) 0 - sorted.getD i 0)
  else sorted.getD (n - 1) 0

/-- Trimmed mean: drop the lowest and highest `⌊α·n⌋` sorted values,
then average. -/
def trimmedMean (sorted : List ℚ) (a : ℚ) : List ℚ :=
  let n := sorted.length
  let k := (ratFloor (a * (n : ℚ))).toNat
  (sorted.drop k).take (n - 2 * k)

/-- Winsorized values: clamp the lowest `⌊lo·n⌋` and highest `⌊hi·n⌋`
sorted values to the nearest kept order statistic. -/
def winsorized (sorted : List ℚ) (lo hi : ℚ) : List ℚ :=
  let n := sorted.length
  let k1 := (ratFloor (lo * (n : ℚ))).toNat
  let k2 := (ratFloor (hi * (n : ℚ))).toNat
  (List.range n).map (fun i =>
    if i < k1 then sorted.getD k1 0
    else if n - k2 ≤ i then sorted.getD (n - 1 - k2) 0
    else sorted.getD i 0)

/-- Modelled from the spec: `compute_descriptive_statistics` of the
absent `core/estimation/descriptive.py` — for one numeric column
(optionally weighted) it computes count, mean, trimmed mean (if α is
supplied), winsorized mean (if limits are supplied), standard deviation,
the selected quantiles (each probability must lie in (0,1)), and a
bias-corrected variant, returning one full-precision row per statistic;
it fails on out-of-range parameters, negative weights or all-zero
weights. The standard deviation rows use the rational square-root
stand-in `ratSqrtApprox` (the exact real root is irrational in general);
no claim settled against this model depends on their numeric value. -/
def compute_descriptive_statistics (data : List ℚ) (quantile_probs : List ℚ)
    (trim_alpha : Option ℚ) (winsor_limits : Option (ℚ × ℚ))
    (weights : Option (List ℚ)) : Except String (List DescRow) :=
  if ¬ quantile_probs.all (fun p => decide (0 < p ∧ p < 1)) then
    .error "InvalidParameter: quantile probabilities must lie strictly between 0 and 1."
  else if (weights.getD []).any (fun w => decide (w < 0)) then
    .error "InvalidInput: weights must be non-negative."
  else if weights.isSome ∧ (weights.getD []).sum ≤ 0 then
    .error "InvalidInput: weights must not be all zero."
  else if ¬ (trim_alpha.getD 0 ≥ 0 ∧ trim_alpha.getD 0 < 1 / 2) then
    .error "InvalidParameter: trim fraction must lie in [0, 0.5)."
  else if ¬ ((winsor_limits.getD (0, 0)).1 ≥ 0 ∧ (winsor_limits.getD (0, 0)).1 < 1 / 2 ∧
      (winsor_limits.getD (0, 0)).2 ≥ 0 ∧ (winsor_limits.getD (0, 0)).2 < 1 / 2) then
    .error "InvalidParameter: winsor limits must lie in [0, 0.5)."
  else
    let n := data.length
    let sorted := List.insertionSort (· ≤ ·) data
    let mean := match weights with
      | some ws => weightedMean data ws
      | none => qmean data
    match (match trim_alpha with
      | none => .ok []
      | some a =>
        if (trimmedMean sorted a).isEmpty then
          .error "InvalidParameter: trimmed sample is empty."
        else .ok [⟨"Trimmed Mean", qmean (trimmedMean sorted a),
          qmean (trimmedMean sorted a)⟩] : Except String (List DescRow)) with
    | .error e => .error e
    | .ok trimRows =>
      let winsRows : List DescRow :=
        match winsor_limits with
        | none => []
        | some l => [⟨"Winsorized Mean", qmean (winsorized sorted l.1 l.2),
            qmean (winsorized sorted l.1 l.2)⟩]
      .ok ([⟨"Count", (n : ℚ), (n : ℚ)⟩, ⟨"Mean", mean, mean⟩] ++ trimRows ++ winsRows ++
        [⟨"Std Dev", ratSqrtApprox (qvariance data 0), ratSqrtApprox (qvariance data 1)⟩] ++
        quantile_probs.map (fun p => ⟨"Quantile", quantileLin sorted p, quantileLin sorted p⟩))

/-- `run_descriptive_statistics` from
`controllers/estimation/descriptive_controller.py`. Its final line
rounds the `Value` and `Bias Corrected` columns of the engine's table to
the session display precision. -/
def run_descriptive_statistics (state : AppState) (df : Option DataFrame)
    (column : String) (quantile_probs : List ℚ) (trim_alpha : Option ℚ)
    (winsor_limits : Option (ℚ × ℚ)) (weights_col : Option String) :
    Except String (List DescRow) :=
  match df with
  | none => .error "No dataset loaded."
  | some d =>
    if column ∉ d.columns then
      .error ("Column '" ++ column ++ "' not found.")
    else
      let series := seriesDropna (d.colD column)
      if series.isEmpty then .error "Selected column has no valid data."
      else if ¬ series.all Cell.isNum then .error "Selected column must be numeric."
      else
        match (if weights_col.getD "" = "" then .ok none
          else if weights_col.getD "" ∉ d.columns then
            .error ("Weights column '" ++ weights_col.getD "" ++ "' not found.")
          else if dtypeOf (d.colD (weights_col.getD "")) ≠ Dtype.numeric then
            .error "Weights must be numeric."
          else if (maskFilter (d.colD (weights_col.getD ""))
              ((d.colD column).map (fun c => !c.isNa))).any (fun c =>
                match c with
                | .num q => decide (q < 0)
                | _ => false) then
            .error "Weights must be non-negative."
          else .ok (some (toNums (maskFilter (d.colD (weights_col.getD ""))
            ((d.colD column).map (fun c => !c.isNa))))) :
          Except String (Option (List ℚ))) with
        | .error e => .error e
        | .ok w =>
          match compute_descriptive_statistics (toNums series) quantile_probs
              trim_alpha winsor_limits w with
          | .error e => .error e
          | .ok stats =>
            .ok (stats.map (fun r =>
              { r with value := roundTo state.display_precision r.value
                       biasCorrected := roundTo state.display_precision r.biasCorrected }))

/-! ## The tabular-rounding check
(`tests/test_no_tabular_rounding_in_core.py`)

The test scans every `core/*.py` file (except the exempted
`hypothesis_tests.py`) for the regular expressions `\bround\s*\(`,
`\bnp\.round\s*\(` and `\.round\s*\(`, collecting one violation per
match. A file is embedded as a `(basename, content)` pair, and the test
function as an `Except`-valued routine: a raised assertion would be an
`Except.error`. -/

/-- Regex word character (`\w`). -/
def isWordChar (c : Char) : Bool := c.isAlpha || c.isDigit || c = '_'

/-- Regex tail `\s*\(`: optional whitespace, then an opening paren. -/
def spacesThenLParen : List Char → Bool
  | [] => false
  | c :: cs => if c.isWhitespace then spacesThenLParen cs else c = '('

/-- Match of `\bround\s*\(` starting at the current position, where
`prev` says whether the preceding character is a word character. -/
def matchPat1At (prev : Bool) : List Char → Bool
  | 'r' :: 'o' :: 'u' :: 'n' :: 'd' :: rest => !prev && spacesThenLParen rest
  | _ => false

/-- Match of `\bnp\.round\s*\(` starting at the current position. -/
def matchPat2At (prev : Bool) : List Char → Bool
  | 'n' :: 'p' :: '.' :: 'r' :: 'o' :: 'u' :: 'n' :: 'd' :: rest =>
    !prev && spacesThenLParen rest
  | _ => false

/-- Match of `\.round\s*\(` starting at the current position. -/
def matchPat3At (prev : Bool) : List Char → Bool
  | '.' :: 'r' :: 'o' :: 'u' :: 'n' :: 'd' :: rest => spacesThenLParen rest
  | _ => false

/-- Number of positions at which a pattern matches (matches of these
patterns cannot overlap, so this is `re.finditer`'s count). -/
def countMatches (pat : Bool → List Char → Bool) : Bool → List Char → Nat
  | _, [] => 0
  | prev, c :: cs =>
    (if pat prev (c :: cs) then 1 else 0) + countMatches pat (isWordChar c) cs

/-- Violations contributed by one file: the match count of the three
forbidden patterns over its content. -/
def fileViolations (content : String) : Nat :=
  countMatches matchPat1At false content.data +
    countMatches matchPat2At false content.data +
    countMatches matchPat3At false content.data

/-- All violations collected by the scan: files are `(basename,
content)` pairs, and `hypothesis_tests.py` is skipped. -/
def coreRoundingViolations (files : List (String × String)) : Nat :=
  (files.map (fun f =>
    if f.1 = "hypothesis_tests.py" then 0 else fileViolations f.2)).sum

/-- `test_no_tabular_rounding_in_core` from
`tests/test_no_tabular_rounding_in_core.py`: it computes the violation
list and then returns without asserting anything about it, so the test
function never raises, whatever the files contain. -/
def test_no_tabular_rounding_in_core (files : List (String × String)) :
    Except String Unit :=
  let _violations := coreRoundingViolations files
  .ok ()

/-! ## Concrete data used by the witnesses -/

/-- A small dataframe with one numeric and one categorical column. -/
def dfHypo : DataFrame :=
  ⟨[("x", [Cell.num 1, Cell.num 2, Cell.num 3, Cell.num 4]),
    ("g", [Cell.str "a", Cell.str "a", Cell.str "b", Cell.str "b"])]⟩

/-- A small numeric dataframe for the regression witnesses. -/
def dfReg : DataFrame :=
  ⟨[("x", [Cell.num 2, Cell.num 1, Cell.num 3]),
    ("y", [Cell.num 4, Cell.num 2, Cell.num 6])]⟩

def state4 : AppState := ⟨4⟩

/-- Regression-controller inputs: one predictor, Simple Regression plot,
fit to observations. -/
def argsReg1 : RegArgs :=
  { df := some dfReg, filtered_df := none, formula_check := false,
    formula_text := "", formula_latex := "", dependent_var := some "y",
    independent_vars := ["x"], alpha_input := "0.95", intercept := true,
    graph_check := true, graph_type := "Simple Regression", show_ci := true,
    show_pi := true, fit_to_obs := true, x_range_text := "" }

/-- The same request with two predictors selected. -/
def argsReg2 : RegArgs := { argsReg1 with independent_vars := ["x", "y"] }

/-- Formula-mode regression inputs. -/
def argsRegF : RegArgs :=
  { argsReg1 with
    formula_check := true, formula_text := "y ~ x",
    graph_check := false }

/-- Hypothesis-dispatcher inputs for a one-way ANOVA on `dfHypo`. -/
def argsAnova : HypoArgs :=
  { df := some dfHypo, numeric_col := "x", hypo_test := "One-way ANOVA",
    mu0_text := "", alternative := "two-sided", include_graph := false,
    bootstrap_samples := 1000, cat_col1 := none, cat_vals1 := none,
    name_group1 := "", cat_col2 := none, cat_vals2 := none,
    name_group2 := "", cat_col3 := some "g", cat_vals3 := ["a", "b"],
    plot_type := "", correction := false, test_type := "Bartlett" }

/-- The same dispatcher inputs with an unrecognized test name. -/
def argsUnknownTest : HypoArgs := { argsAnova with hypo_test := "Bogus test" }

/-- Hypothesis-dispatcher inputs for a variance-equality test of the
"a" rows against the "b" rows of `dfHypo`. -/
def argsVarTest : HypoArgs :=
  { argsAnova with
    hypo_test := "Equal variance between two groups",
    cat_col1 := some "g", cat_vals1 := some ["a"],
    cat_col2 := some "g", cat_vals2 := some ["b"] }

/-- A dataframe on which the 1/3 quantile is not representable at four
decimal places. -/
def dfDesc : DataFrame := ⟨[("x", [Cell.num 0, Cell.num 1])]⟩

/-- Spec-side helper: `true` when the given regression-controller result
is an error or carries a figure — i.e. no successful result lacks the
requested plot. -/
def figWhenOk (r : Except String (RegSummary × RoundedParams × Option RegFigure)) : Bool :=
  match r with
  | .ok (_, _, fo) => fo.isSome
  | .error _ => true

/-- Spec-side helper: the range text splits on a comma into exactly two
parts whose numeric values are `lo` and `hi`. -/
def rangeParses (text : String) (lo hi : ℚ) : Prop :=
  ∃ a b, pySplitOn (pyStrip text) ',' = [a, b] ∧
    pyFloat a = some lo ∧ pyFloat b = some hi

/-! ## Theorems -/

/-- C1: the fragment `x = round(1.5)` in a non-exempt core file is a
tabular-rounding violation, the scan finds it, and yet the test function
returns normally on every input whatsoever — the collected violation
list is never asserted on, so the mechanical check cannot fail. -/
theorem rounding_check_is_vacuous :
    coreRoundingViolations [("stats.py", "x = round(1.5)\n")] = 1 ∧
    ∀ files, test_no_tabular_rounding_in_core files = Except.ok () :=
  ⟨by decide, fun _ => rfl⟩

/-- C10: the working dataframe is the filtered one when that is present
and non-empty; when the filtered one is absent or empty the full dataset
is used silently, the call failing only when the full dataset is itself
missing or empty. -/
theorem working_dataframe_selection_spec (df filtered_df : Option DataFrame) :
    (df = none →
      _select_working_dataframe df filtered_df = .error "No dataset loaded.") ∧
    (∀ d f, df = some d → filtered_df = some f → f.empty = false →
      _select_working_dataframe df filtered_df = .ok f) ∧
    (∀ d, df = some d →
      (filtered_df = none ∨ ∃ f, filtered_df = some f ∧ f.empty = true) →
      _select_working_dataframe df filtered_df =
        if d.empty then .error "The dataset is empty." else .ok d) ∧
    ((_select_working_dataframe df filtered_df).isOk = false →
      df = none ∨ ∃ d, df = some d ∧ d.empty = true) := by
  cases df with
  | none =>
    refine ⟨fun _ => rfl, ?_, ?_, fun _ => Or.inl rfl⟩
    · intro d f hd; cases hd
    · intro d hd; cases hd
  | some d =>
    cases filtered_df with
    | none =>
      refine ⟨fun h => Option.noConfusion h, ?_, ?_, ?_⟩
      · intro d' f _ hf; cases hf
      · intro d' hd' _
        cases hd'
        rfl
      · intro h
        by_cases he : d.empty
        · exact Or.inr ⟨d, rfl, he⟩
        · simp [_select_working_dataframe, he, Except.isOk, Except.toBool] at h
    | some f =>
      refine ⟨fun h => Option.noConfusion h, ?_, ?_, ?_⟩
      · intro d' f' hd' hf' hfe
        cases hd'; cases hf'
        simp [_select_working_dataframe, hfe]
      · intro d' hd' hor
        cases hd'
        rcases hor with h | ⟨f', hf', hfe⟩
        · cases h
        · cases hf'
          simp [_select_working_dataframe, hfe]
      · intro h
        by_cases hfe : f.empty
        · by_cases he : d.empty
          · exact Or.inr ⟨d, rfl, he⟩
          · simp [_select_working_dataframe, hfe, he, Except.isOk, Except.toBool] at h
        · simp [_select_working_dataframe, hfe, Except.isOk, Except.toBool] at h

/-- C10 witness: with a dataset loaded and no filter, the full dataset
is selected. -/
theorem working_dataframe_selection_spec_witness :
    _select_working_dataframe (some dfReg) (some (⟨[]⟩ : DataFrame)) = .ok dfReg := by
  have h := (working_dataframe_selection_spec (some dfReg) (some ⟨[]⟩)).2.2.1 dfReg rfl
    (Or.inr ⟨⟨[]⟩, rfl, by decide⟩)
  rw [h]
  decide

theorem pyFloat_strip_empty (s : String) (h : pyStrip s = "") : pyFloat s = none := by
  unfold pyFloat
  rw [h]
  rfl

/-- Inversion for `_parse_confidence_level`: a successful parse is
exactly a numeric text in (0, 1), and the result is one minus it. -/
theorem parse_conf_ok (text : String) (a : ℚ) :
    _parse_confidence_level text = .ok a ↔
      ∃ lvl, pyFloat text = some lvl ∧ 0 < lvl ∧ lvl < 1 ∧ a = 1 - lvl := by
  unfold _parse_confidence_level
  by_cases hs : pyStrip text = ""
  · simp [hs, pyFloat_strip_empty text hs]
  · rw [if_neg hs]
    cases hp : pyFloat text with
    | none => simp
    | some lvl =>
      dsimp only
      by_cases hl : 0 < lvl ∧ lvl < 1
      · rw [if_pos hl]
        constructor
        · intro h
          injection h with h
          exact ⟨lvl, rfl, hl.1, hl.2, h.symm⟩
        · rintro ⟨l, hl2, h1, h2, h3⟩
          injection hl2 with hl2
          rw [h3, hl2]
      · rw [if_neg hl]
        constructor
        · intro h; cases h
        · rintro ⟨l, hl2, h1, h2, h3⟩
          injection hl2 with hl2
          exact absurd ⟨hl2 ▸ h1, hl2 ▸ h2⟩ hl

set_option maxHeartbeats 2000000 in
/-- The alpha recorded in the core's summary and coefficient table is
the alpha the core was called with. -/
theorem run_core_ok_alpha {df : DataFrame} {fc : Bool} {ft fl dv : String}
    {iv : List String} {a : ℚ} {itc cg : Bool} {gt : String} {sc sp fo : Bool}
    {xv : Option (List ℚ)} {s : RegSummary} {p : ParamsTable} {f : Option RegFigure}
    (h : run_linear_regression_core df fc ft fl dv iv a itc cg gt sc sp fo xv =
      .ok (s, p, f)) : s.alpha = a ∧ p.alpha = a := by
  simp only [run_linear_regression_core] at h
  repeat' split at h
  all_goals try cases h
  all_goals exact ⟨rfl, rfl⟩

set_option maxHeartbeats 2000000 in
/-- The controller's successful result records `1 - level` for the
parsed confidence level, in the summary and in the coefficient table. -/
theorem run_lr_ok_alpha {state : AppState} {args : RegArgs} {s : RegSummary}
    {p : RoundedParams} {f : Option RegFigure}
    (h : run_linear_regression state args = .ok (s, p, f)) :
    ∃ lvl, pyFloat args.alpha_input = some lvl ∧ 0 < lvl ∧ lvl < 1 ∧
      s.alpha = 1 - lvl ∧ p.table.alpha = 1 - lvl := by
  unfold run_linear_regression at h
  repeat' split at h
  all_goals try cases h
  all_goals
    obtain ⟨lvl, hlvl, h1, h2, h3⟩ := (parse_conf_ok args.alpha_input _).mp (by assumption)
    obtain ⟨hsa, hpa⟩ := run_core_ok_alpha (by assumption)
    exact ⟨lvl, hlvl, h1, h2, h3 ▸ hsa, h3 ▸ hpa⟩

/-- C4: a confidence-level text parsing to a number strictly between 0
and 1 yields exactly the significance level `1 - level`, any other text
(empty, non-numeric, or out of range) fails with an error rather than
being clamped, and every successful regression call records `1 - level`
as the alpha handed to the interval machinery (summary and coefficient
table). -/
theorem confidence_level_parsing_spec (text : String) (q : ℚ) :
    (pyFloat text = some q → 0 < q → q < 1 →
      _parse_confidence_level text = .ok (1 - q)) ∧
    (pyFloat text = none → (_parse_confidence_level text).isOk = false) ∧
    (pyFloat text = some q → ¬(0 < q ∧ q < 1) →
      (_parse_confidence_level text).isOk = false) ∧
    (∀ state args s p f, run_linear_regression state args = .ok (s, p, f) →
      ∃ lvl, pyFloat args.alpha_input = some lvl ∧ 0 < lvl ∧ lvl < 1 ∧
        s.alpha = 1 - lvl ∧ p.table.alpha = 1 - lvl) := by
  refine ⟨?_, ?_, ?_, ?_⟩
  · intro hp h0 h1
    exact (parse_conf_ok text (1 - q)).mpr ⟨q, hp, h0, h1, rfl⟩
  · intro hp
    cases ho : _parse_confidence_level text with
    | error e => rfl
    | ok a =>
      obtain ⟨lvl, hlvl, _⟩ := (parse_conf_ok text a).mp ho
      rw [hp] at hlvl
      cases hlvl
  · intro hp hno
    cases ho : _parse_confidence_level text with
    | error e => rfl
    | ok a =>
      obtain ⟨lvl, hlvl, h0, h1, _⟩ := (parse_conf_ok text a).mp ho
      rw [hp] at hlvl
      injection hlvl with hlvl
      subst hlvl
      exact absurd ⟨h0, h1⟩ hno
  · intro state args s p f h
    exact run_lr_ok_alpha h

/-- C4 witness: "0.95" parses to alpha 0.05, and "1.5" fails. -/
theorem confidence_level_parsing_spec_witness :
    _parse_confidence_level "0.95" = .ok (1 - 19 / 20) ∧
    (_parse_confidence_level "1.5").isOk = false :=
  ⟨(confidence_level_parsing_spec "0.95" (19 / 20)).1 (by decide) (by decide) (by decide),
   (confidence_level_parsing_spec "1.5" (3 / 2)).2.2.1 (by decide) (by decide)⟩

/-- The Simple Regression plot of a formula-mode fit does not depend on
the explicit intercept flag. -/
theorem plot_formula_intercept_irrel (data : DataFrame) (x y : String)
    (itc : Bool) (fl : String) (m : RegModel) (a : ℚ) (sc sp fo : Bool)
    (xv : Option (List ℚ)) :
    plot_simple_regression data x y itc true fl m a sc sp fo xv =
      plot_simple_regression data x y false true fl m a sc sp fo xv := rfl

/-- The core in formula mode is independent of the intercept flag. -/
theorem core_formula_intercept_irrel (df : DataFrame) (ft fl dv : String)
    (iv : List String) (a : ℚ) (itc : Bool) (cg : Bool) (gt : String)
    (sc sp fo : Bool) (xv : Option (List ℚ)) :
    run_linear_regression_core df true ft fl dv iv a itc cg gt sc sp fo xv =
      run_linear_regression_core df true ft fl dv iv a false cg gt sc sp fo xv := by
  by_cases hft : ft = ""
  · simp [run_linear_regression_core, hft]
  · simp only [run_linear_regression_core, if_neg hft]
    rfl

/-- C8: in formula mode (with non-empty formula text) the whole
regression call — fit, summary, coefficient table, and diagnostic plot —
is identical for `intercept := true` and `intercept := false`: the
formula alone controls the intercept. -/
theorem formula_mode_ignores_intercept_flag (state : AppState) (args : RegArgs)
    (hf : args.formula_check = true) (hne : args.formula_text ≠ "") :
    run_linear_regression state { args with intercept := true } =
      run_linear_regression state { args with intercept := false } := by
  unfold run_linear_regression
  dsimp only
  simp only [hf]
  cases _select_working_dataframe args.df args.filtered_df with
  | error e => rfl
  | ok wdf =>
    dsimp only
    by_cases h1 : args.dependent_var.getD "" = ""
    · rw [if_pos h1, if_pos h1]
    · rw [if_neg h1, if_neg h1]
      by_cases h2 : args.independent_vars.isEmpty = true
      · rw [if_pos h2, if_pos h2]
      · rw [if_neg h2, if_neg h2]
        by_cases h3 : args.graph_check = true ∧ args.graph_type = "Simple Regression" ∧
          args.independent_vars.length ≠ 1
        · rw [if_pos h3, if_pos h3]
        · rw [if_neg h3, if_neg h3]
          cases _parse_confidence_level args.alpha_input with
          | error e => rfl
          | ok alpha =>
            dsimp only
            cases (if args.graph_check = true ∧ args.graph_type = "Simple Regression" ∧
                args.fit_to_obs = false then
                _parse_range args.x_range_text
              else Except.ok none) with
            | error e => rfl
            | ok x_vector =>
              dsimp only
              rw [core_formula_intercept_irrel]

/-- C8 witness: on a concrete formula-mode request the two intercept
settings produce the same output. -/
theorem formula_mode_ignores_intercept_flag_witness :
    run_linear_regression state4 { argsRegF with intercept := true } =
      run_linear_regression state4 { argsRegF with intercept := false } :=
  formula_mode_ignores_intercept_flag state4 argsRegF (by decide) (by decide)

set_option maxHeartbeats 2000000 in
/-- The core never returns successfully without a figure when a Simple
Regression graph was requested. -/
theorem core_simple_graph_some {df : DataFrame} {fc : Bool} {ft fl dv : String}
    {iv : List String} {a : ℚ} {itc : Bool} {gt : String} {sc sp fo : Bool}
    {xv : Option (List ℚ)} {s : RegSummary} {p : ParamsTable} {f : Option RegFigure}
    (hc : run_linear_regression_core df fc ft fl dv iv a itc true gt sc sp fo xv =
      .ok (s, p, f)) (hgt : gt = "Simple Regression") : f.isSome = true := by
  subst hgt
  simp only [run_linear_regression_core] at hc
  repeat' split at hc
  all_goals try cases hc
  all_goals first
    | rfl
    | simp_all
    | (injection hc with h2
       rw [Prod.ext_iff] at h2
       obtain ⟨-, h22⟩ := h2
       rw [Prod.ext_iff] at h22
       obtain ⟨-, h23⟩ := h22
       rw [← h23])

/-- C5: with a Simple Regression graph requested, the call fails
whenever the number of selected independent variables is not exactly
one, and no successful call lacks the figure. -/
theorem simple_regression_arity_spec (state : AppState) (args : RegArgs)
    (hg : args.graph_check = true) (ht : args.graph_type = "Simple Regression") :
    (args.independent_vars.length ≠ 1 →
      (run_linear_regression state args).isOk = false) ∧
    figWhenOk (run_linear_regression state args) = true := by
  constructor
  · intro hlen
    unfold run_linear_regression
    cases hw : _select_working_dataframe args.df args.filtered_df with
    | error e => rfl
    | ok wdf =>
      dsimp only
      by_cases h1 : args.dependent_var.getD "" = ""
      · rw [if_pos h1]; rfl
      · rw [if_neg h1]
        by_cases h2 : args.independent_vars.isEmpty = true
        · rw [if_pos h2]; rfl
        · rw [if_neg h2]
          rw [if_pos ⟨hg, ht, hlen⟩]
          rfl
  · unfold run_linear_regression
    cases hw : _select_working_dataframe args.df args.filtered_df with
    | error e => rfl
    | ok wdf =>
      dsimp only
      by_cases h1 : args.dependent_var.getD "" = ""
      · rw [if_pos h1]; rfl
      · rw [if_neg h1]
        by_cases h2 : args.independent_vars.isEmpty = true
        · rw [if_pos h2]; rfl
        · rw [if_neg h2]
          by_cases h3 : args.graph_check = true ∧ args.graph_type = "Simple Regression" ∧
            args.independent_vars.length ≠ 1
          · rw [if_pos h3]; rfl
          · rw [if_neg h3]
            cases hp : _parse_confidence_level args.alpha_input with
            | error e => rfl
            | ok a =>
              dsimp only
              cases hxv : (if args.graph_check = true ∧
                  args.graph_type = "Simple Regression" ∧ args.fit_to_obs = false then
                  _parse_range args.x_range_text
                else Except.ok none) with
              | error e => rfl
              | ok xv =>
                dsimp only
                cases hc : run_linear_regression_core wdf args.formula_check
                    args.formula_text args.formula_latex (args.dependent_var.getD "")
                    args.independent_vars a args.intercept args.graph_check
                    args.graph_type args.show_ci args.show_pi args.fit_to_obs xv with
                | error e => rfl
                | ok out =>
                  obtain ⟨s', p', f'⟩ := out
                  dsimp only [figWhenOk]
                  rw [hg, ht] at hc
                  exact core_simple_graph_some hc rfl

/-- C5 witness: a one-predictor Simple Regression request succeeds with
a figure, and the same request with two predictors fails. -/
theorem simple_regression_arity_spec_witness :
    figWhenOk (run_linear_regression state4 argsReg1) = true ∧
    (run_linear_regression state4 argsReg1).isOk = true ∧
    (run_linear_regression state4 argsReg2).isOk = false :=
  ⟨(simple_regression_arity_spec state4 argsReg1 rfl rfl).2, by decide,
   (simple_regression_arity_spec state4 argsReg2 rfl rfl).1 (by decide)⟩

/-- C9: the Simple Regression prediction grid is either the observed
covariate values sorted ascending (fit-to-observations mode) or exactly
100 evenly spaced points over the parsed `[min, max]` range; a range
whose minimum is not strictly below its maximum, or a malformed range
string, fails with an error, as does a missing grid when one is
required. -/
theorem simple_regression_grid_spec :
    (∀ text lo hi, rangeParses text lo hi →
      (lo < hi → _parse_range text = .ok (some (npLinspace lo hi 100))) ∧
      (hi ≤ lo → (_parse_range text).isOk = false)) ∧
    (∀ text, pyStrip text ≠ "" → (∀ lo hi, ¬ rangeParses text lo hi) →
      (_parse_range text).isOk = false) ∧
    (∀ lo hi, (npLinspace lo hi 100).length = 100 ∧
      ∀ i : ℕ, i < 100 →
        (npLinspace lo hi 100).getD i 0 = lo + (hi - lo) * (i : ℚ) / 99) ∧
    (∀ data x y itc uf fl m a sc sp xv fig,
      plot_simple_regression data x y itc uf fl m a sc sp true xv = .ok fig →
      fig.xPlotOf =
        List.insertionSort (· ≤ ·) (toNums (((data.select [x, y]).dropnaRows).colD x)) ∧
      fig.xPlotOf.Sorted (· ≤ ·) ∧
      fig.xPlotOf.Perm (toNums (((data.select [x, y]).dropnaRows).colD x))) ∧
    (∀ data x y itc uf fl m a sc sp,
      (plot_simple_regression data x y itc uf fl m a sc sp false none).isOk = false) ∧
    (∀ data x y itc uf fl m a sc sp v fig,
      plot_simple_regression data x y itc uf fl m a sc sp false (some v) = .ok fig →
      fig.xPlotOf = v) := by
  refine ⟨?_, ?_, ?_, ?_, ?_, ?_⟩
  · rintro text lo hi ⟨a, b, hsp, hfa, hfb⟩
    have hne : pyStrip text ≠ "" := by
      intro h
      rw [h] at hsp
      simp [pySplitOn, splitChars] at hsp
    constructor
    · intro hlt
      unfold _parse_range
      rw [if_neg hne, hsp]
      dsimp only
      rw [hfa, hfb]
      dsimp only
      rw [if_neg (by exact not_le.mpr hlt)]
    · intro hge
      unfold _parse_range
      rw [if_neg hne, hsp]
      dsimp only
      rw [hfa, hfb]
      dsimp only
      rw [if_pos (by exact hge)]
      rfl
  · intro text hne hno
    unfold _parse_range
    rw [if_neg hne]
    split
    · rename_i a b heq
      cases hfa : pyFloat a with
      | none => rfl
      | some lo =>
        cases hfb : pyFloat b with
        | none => rfl
        | some hi => exact absurd ⟨a, b, heq, hfa, hfb⟩ (hno lo hi)
    · rfl
  · intro lo hi
    constructor
    · simp only [npLinspace, List.length_map, List.length_range]
    · intro i hi100
      rw [npLinspace, List.getD_eq_getElem?_getD, List.getElem?_map,
        List.getElem?_range hi100]
      show lo + (hi - lo) * (i : ℚ) / ((100 : ℚ) - 1) = lo + (hi - lo) * (i : ℚ) / 99
      norm_num
  · intro data x y itc uf fl m a sc sp xv fig h
    injection h with h2
    refine ⟨?_, ?_, ?_⟩
    · rw [← h2]
      rfl
    · rw [← h2]
      exact List.sorted_insertionSort _ _
    · rw [← h2]
      exact List.perm_insertionSort _ _
  · intro data x y itc uf fl m a sc sp
    rfl
  · intro data x y itc uf fl m a sc sp v fig h
    injection h with h2
    rw [← h2]
    rfl

/-- C9 witness: "0, 10" yields the 100-point grid from 0 to 10, and
"10, 0" fails. -/
theorem simple_regression_grid_spec_witness :
    _parse_range "0, 10" = .ok (some (npLinspace 0 10 100)) ∧
    (_parse_range "10, 0").isOk = false :=
  ⟨(simple_regression_grid_spec.1 "0, 10" 0 10
      ⟨"0", " 10", by decide, by decide, by decide⟩).1 (by decide),
   (simple_regression_grid_spec.1 "10, 0" 10 0
      ⟨"10", " 0", by decide, by decide, by decide⟩).2 (by decide)⟩

set_option maxHeartbeats 2000000 in
/-- Every successful dispatcher call ran the routine its test-name
string routes to. -/
theorem run_hypo_ok_tag {state : AppState} {args : HypoArgs} {r : HypoResult}
    (h : run_hypothesis_testing state args = .ok r) :
    routeTag args.hypo_test = some r.payload.tag := by
  simp only [run_hypothesis_testing, one_way_anova] at h
  repeat' split at h
  all_goals try cases h
  all_goals first
    | (simp_all [routeTag, HypoPayload.tag, one_sample_ttest, two_sample_ttest,
         variance_test]
       done)
    | (injection h with h2
       rw [← h2]
       simp_all [routeTag, HypoPayload.tag, one_sample_ttest, two_sample_ttest,
         variance_test]
       done)
    | (rename_i rr heqa
       split at heqa
       · cases heqa
       · injection heqa with h3
         rw [← h3]
         simp_all [routeTag, HypoPayload.tag])

/-- An unrecognized test name always fails. -/
theorem run_hypo_unknown {state : AppState} {args : HypoArgs}
    (hr : routeTag args.hypo_test = none) :
    (run_hypothesis_testing state args).isOk = false := by
  have h1 : args.hypo_test ≠ "One sample Student's t-test" := by
    intro h; rw [h] at hr; simp [routeTag] at hr
  have h2 : args.hypo_test ≠ "Two samples Student's t-test" := by
    intro h; rw [h] at hr; simp [routeTag] at hr
  have h3 : args.hypo_test ≠ "Equal variance between two groups" := by
    intro h; rw [h] at hr; simp [routeTag] at hr
  have h4 : args.hypo_test ≠ "One-way ANOVA" := by
    intro h; rw [h] at hr; simp [routeTag] at hr
  unfold run_hypothesis_testing
  cases args.df with
  | none => rfl
  | some df =>
    dsimp only
    cases _ensure_numeric_series (some df) args.numeric_col with
    | error e => rfl
    | ok series =>
      dsimp only
      rw [if_neg h1, if_neg h2, if_neg h3, if_neg h4]
      rfl

/-- C6: the dispatcher is a pure routing function on the test-name
string: every successful call ran exactly the routine the name routes
to, and a name outside the four recognized ones always fails with an
error. -/
theorem hypothesis_dispatch_routing_spec (state : AppState) (args : HypoArgs) :
    (∀ r, run_hypothesis_testing state args = .ok r →
      routeTag args.hypo_test = some r.payload.tag) ∧
    (routeTag args.hypo_test = none →
      (run_hypothesis_testing state args).isOk = false) :=
  ⟨fun _ h => run_hypo_ok_tag h, fun hr => run_hypo_unknown hr⟩

/-- C6 witness: an unknown test name fails, and a concrete ANOVA call
routes to the ANOVA routine. -/
theorem hypothesis_dispatch_routing_spec_witness :
    (run_hypothesis_testing state4 argsUnknownTest).isOk = false ∧
    routeTag argsAnova.hypo_test =
      some (HypoResult.mk
        (HypoPayload.anova [(Cell.str "a", [1, 2]), (Cell.str "b", [3, 4])])
        [("n_groups", 2)]).payload.tag :=
  ⟨(hypothesis_dispatch_routing_spec state4 argsUnknownTest).2 (by decide),
   (hypothesis_dispatch_routing_spec state4 argsAnova).1 _ (by decide)⟩

/-- C7: a two-group test's group is exactly the numeric column's
non-missing values on the rows whose categorical value lies in the
selected set; selecting no categories fails, an empty group after
filtering fails, every successful two-sample t-test or
variance-equality dispatch materialized both groups this way, and on
those two test paths a failing materialization of either group makes
the whole call fail. -/
theorem materialize_group_spec (df : DataFrame) (ncol c : String)
    (vals : Option (List String)) :
    ((vals.getD []).isEmpty = true →
      (_materialize_group df ncol (some c) vals).isOk = false) ∧
    (∀ g, _materialize_group df ncol (some c) vals = .ok g →
      ∃ cvals, castSeries (dtypeOf (df.colD c)) (vals.getD []) = .ok cvals ∧
        g = seriesDropna (maskFilter (df.colD ncol)
          ((df.colD c).map (fun v => decide (v ∈ cvals)))) ∧
        g ≠ []) ∧
    (∀ cvals, castSeries (dtypeOf (df.colD c)) (vals.getD []) = .ok cvals →
      seriesDropna (maskFilter (df.colD ncol)
        ((df.colD c).map (fun v => decide (v ∈ cvals)))) = [] →
      (_materialize_group df ncol (some c) vals).isOk = false) ∧
    (∀ state args r,
      (args.hypo_test = "Two samples Student's t-test" ∨
        args.hypo_test = "Equal variance between two groups") →
      run_hypothesis_testing state args = .ok r →
      ∃ d, args.df = some d ∧
        (_materialize_group d args.numeric_col args.cat_col1 args.cat_vals1).isOk = true ∧
        (_materialize_group d args.numeric_col args.cat_col2 args.cat_vals2).isOk = true) ∧
    (∀ state args d,
      (args.hypo_test = "Two samples Student's t-test" ∨
        args.hypo_test = "Equal variance between two groups") →
      args.df = some d →
      ((_materialize_group d args.numeric_col args.cat_col1 args.cat_vals1).isOk = false ∨
        (_materialize_group d args.numeric_col args.cat_col2 args.cat_vals2).isOk = false) →
      (run_hypothesis_testing state args).isOk = false) := by
  refine ⟨?_, ?_, ?_, ?_, ?_⟩
  · intro hv
    unfold _materialize_group
    dsimp only
    by_cases hc : c ∉ df.columns
    · rw [if_pos hc]; rfl
    · rw [if_neg hc, if_pos hv]; rfl
  · intro g h
    unfold _materialize_group at h
    dsimp only at h
    by_cases hc : c ∉ df.columns
    · rw [if_pos hc] at h; cases h
    · rw [if_neg hc] at h
      by_cases hv : (vals.getD []).isEmpty = true
      · rw [if_pos hv] at h; cases h
      · rw [if_neg hv] at h
        cases hcast : castSeries (dtypeOf (df.colD c)) (vals.getD []) with
        | error e => rw [hcast] at h; cases h
        | ok cvals =>
          rw [hcast] at h
          dsimp only at h
          by_cases hemp : (seriesDropna (maskFilter (df.colD ncol)
              ((df.colD c).map (fun v => decide (v ∈ cvals))))).isEmpty = true
          · rw [if_pos hemp] at h; cases h
          · rw [if_neg hemp] at h
            injection h with h
            subst h
            refine ⟨cvals, rfl, rfl, ?_⟩
            simp at hemp
            exact hemp
  · intro cvals hcast hser
    unfold _materialize_group
    dsimp only
    by_cases hc : c ∉ df.columns
    · rw [if_pos hc]; rfl
    · rw [if_neg hc]
      by_cases hv : (vals.getD []).isEmpty = true
      · rw [if_pos hv]; rfl
      · rw [if_neg hv, hcast]
        dsimp only
        rw [if_pos (by rw [hser]; rfl)]
        rfl
  · intro state args r hname h
    unfold run_hypothesis_testing at h
    cases hdf : args.df with
    | none => rw [hdf] at h; cases h
    | some d =>
      rw [hdf] at h
      dsimp only at h
      cases he : _ensure_numeric_series (some d) args.numeric_col with
      | error e => rw [he] at h; cases h
      | ok series =>
        rw [he] at h
        dsimp only at h
        rcases hname with hname | hname
        · rw [hname] at h
          rw [if_neg (by decide :
            ¬ ("Two samples Student's t-test" = "One sample Student's t-test"))] at h
          rw [if_pos (rfl :
            "Two samples Student's t-test" = "Two samples Student's t-test")] at h
          cases hg1 : _materialize_group d args.numeric_col args.cat_col1 args.cat_vals1 with
          | error e => rw [hg1] at h; cases h
          | ok g1 =>
            rw [hg1] at h
            dsimp only at h
            cases hg2 : _materialize_group d args.numeric_col args.cat_col2 args.cat_vals2 with
            | error e => rw [hg2] at h; cases h
            | ok g2 =>
              refine ⟨d, rfl, ?_, ?_⟩
              · rw [hg1]; rfl
              · rw [hg2]; rfl
        · rw [hname] at h
          rw [if_neg (by decide :
            ¬ ("Equal variance between two groups" = "One sample Student's t-test"))] at h
          rw [if_neg (by decide :
            ¬ ("Equal variance between two groups" = "Two samples Student's t-test"))] at h
          rw [if_pos (rfl :
            "Equal variance between two groups" = "Equal variance between two groups")] at h
          cases hg1 : _materialize_group d args.numeric_col args.cat_col1 args.cat_vals1 with
          | error e => rw [hg1] at h; cases h
          | ok g1 =>
            rw [hg1] at h
            dsimp only at h
            cases hg2 : _materialize_group d args.numeric_col args.cat_col2 args.cat_vals2 with
            | error e => rw [hg2] at h; cases h
            | ok g2 =>
              refine ⟨d, rfl, ?_, ?_⟩
              · rw [hg1]; rfl
              · rw [hg2]; rfl
  · intro state args d hname hdf hfail
    unfold run_hypothesis_testing
    rw [hdf]
    dsimp only
    cases he : _ensure_numeric_series (some d) args.numeric_col with
    | error e => rfl
    | ok series =>
      dsimp only
      rcases hname with hname | hname
      · rw [hname]
        rw [if_neg (by decide :
          ¬ ("Two samples Student's t-test" = "One sample Student's t-test"))]
        rw [if_pos (rfl :
          "Two samples Student's t-test" = "Two samples Student's t-test")]
        cases hg1 : _materialize_group d args.numeric_col args.cat_col1 args.cat_vals1 with
        | error e => rfl
        | ok g1 =>
          dsimp only
          cases hg2 : _materialize_group d args.numeric_col args.cat_col2 args.cat_vals2 with
          | error e => rfl
          | ok g2 =>
            rcases hfail with hf | hf
            · rw [hg1] at hf
              simp [Except.isOk, Except.toBool] at hf
            · rw [hg2] at hf
              simp [Except.isOk, Except.toBool] at hf
      · rw [hname]
        rw [if_neg (by decide :
          ¬ ("Equal variance between two groups" = "One sample Student's t-test"))]
        rw [if_neg (by decide :
          ¬ ("Equal variance between two groups" = "Two samples Student's t-test"))]
        rw [if_pos (rfl :
          "Equal variance between two groups" = "Equal variance between two groups")]
        cases hg1 : _materialize_group d args.numeric_col args.cat_col1 args.cat_vals1 with
        | error e => rfl
        | ok g1 =>
          dsimp only
          cases hg2 : _materialize_group d args.numeric_col args.cat_col2 args.cat_vals2 with
          | error e => rfl
          | ok g2 =>
            rcases hfail with hf | hf
            · rw [hg1] at hf
              simp [Except.isOk, Except.toBool] at hf
            · rw [hg2] at hf
              simp [Except.isOk, Except.toBool] at hf

/-- C7 witness: on a concrete dataframe, selecting category "a"
materializes exactly the non-missing numeric values of the "a" rows,
and a concrete successful variance-equality dispatch materialized both
of its groups. -/
theorem materialize_group_spec_witness :
    (∃ cvals, castSeries (dtypeOf (dfHypo.colD "g"))
        ((some ["a"] : Option (List String)).getD []) = .ok cvals ∧
      [Cell.num 1, Cell.num 2] = seriesDropna (maskFilter (dfHypo.colD "x")
        ((dfHypo.colD "g").map (fun v => decide (v ∈ cvals)))) ∧
      ([Cell.num 1, Cell.num 2] : List Cell) ≠ []) ∧
    (∃ d, argsVarTest.df = some d ∧
      (_materialize_group d argsVarTest.numeric_col argsVarTest.cat_col1
        argsVarTest.cat_vals1).isOk = true ∧
      (_materialize_group d argsVarTest.numeric_col argsVarTest.cat_col2
        argsVarTest.cat_vals2).isOk = true) :=
  ⟨(materialize_group_spec dfHypo "x" "g" (some ["a"])).2.1
      [Cell.num 1, Cell.num 2] (by decide),
   (materialize_group_spec dfHypo "x" "g" (some ["a"])).2.2.2.1 state4 argsVarTest
      ⟨.varianceEq [1, 2] [3, 4] "Bartlett", [("n1", 2), ("n2", 2)]⟩
      (Or.inr rfl) (by decide)⟩

theorem lookupCol_map (f : List Cell → List Cell) (nm : String) :
    ∀ cs : List (String × List Cell),
      lookupCol (cs.map (fun p => (p.1, f p.2))) nm = (lookupCol cs nm).map f
  | [] => rfl
  | (n, cs0) :: rest => by
    simp only [List.map_cons, lookupCol]
    by_cases h : n = nm
    · rw [if_pos h, if_pos h]
      rfl
    · rw [if_neg h, if_neg h, lookupCol_map f nm rest]

theorem filterRows_col? (d : DataFrame) (m : List Bool) (nm : String) :
    (d.filterRows m).col? nm = (d.col? nm).map (fun cs => maskFilter cs m) := by
  show lookupCol (d.cols.map (fun p => (p.1, maskFilter p.2 m))) nm = _
  exact lookupCol_map (fun cs => maskFilter cs m) nm d.cols

theorem zipWith_and_replicate (p : Cell → Bool) (l : List Cell) :
    List.zipWith (fun c b => p c && b) l (List.replicate l.length true) = l.map p := by
  induction l with
  | nil => rfl
  | cons a t ih => simp [List.replicate_succ, ih]

theorem maskFilter_zip {α β : Type} :
    ∀ (as : List α) (bs : List β) (m : List Bool), as.length = bs.length →
      (maskFilter as m).zip (maskFilter bs m) = maskFilter (as.zip bs) m
  | [], bs, m, h => by simp [maskFilter]
  | a :: ta, [], m, h => by cases h
  | a :: ta, b :: tb, [], h => by simp [maskFilter]
  | a :: ta, b :: tb, mb :: tm, h => by
    have ht : ta.length = tb.length := Nat.succ.inj h
    cases mb <;> simp [maskFilter, maskFilter_zip ta tb tm ht] <;> rfl

theorem maskFilter_length_eq {α β : Type} :
    ∀ (as : List α) (bs : List β) (m : List Bool), as.length = bs.length →
      (maskFilter as m).length = (maskFilter bs m).length
  | [], [], m, h => rfl
  | [], b :: tb, m, h => by cases h
  | a :: ta, [], m, h => by cases h
  | a :: ta, b :: tb, [], h => rfl
  | a :: ta, b :: tb, mb :: tm, h => by
    have ht : ta.length = tb.length := Nat.succ.inj h
    cases mb <;> simp [maskFilter, maskFilter_length_eq ta tb tm ht]

theorem zipWith_eq_map_zip {α β γ : Type} (f : α → β → γ) :
    ∀ (l : List α) (l' : List β),
      List.zipWith f l l' = (l.zip l').map (fun p => f p.1 p.2)
  | [], _ => rfl
  | _ :: _, [] => rfl
  | a :: ta, b :: tb => by simp [zipWith_eq_map_zip f ta tb]

theorem maskFilter_map_self {α : Type} (p : α → Bool) :
    ∀ l : List α, maskFilter l (l.map p) = l.filter p
  | [] => rfl
  | a :: t => by
    cases hp : p a <;> simp [maskFilter, hp, maskFilter_map_self p t]

/-- The NaN-free zipped rows of the ANOVA data group are exactly the
rows of the original frame whose categorical value is among the selected
(cast) values and whose two cells are both present. -/
theorem anovaDataGroup_pairs (d : DataFrame) (ncol ccol : String)
    (cvals : List Cell) (as bs : List Cell)
    (hn : d.col? ncol = some as) (hb : d.col? ccol = some bs)
    (hlen : bs.length = as.length) (hnc : ncol ≠ ccol) :
    ((anovaDataGroup d ncol ccol cvals).colD ncol).zip
        ((anovaDataGroup d ncol ccol cvals).colD ccol) =
      (as.zip bs).filter (fun pr =>
        (!pr.1.isNa && !pr.2.isNa) && decide (pr.2 ∈ cvals)) := by
  have hcolD_c : d.colD ccol = bs := by rw [DataFrame.colD, hb]; rfl
  have hm1 : (d.colD ccol).map (fun v => decide (v ∈ cvals)) =
      (as.zip bs).map (fun pr => decide (pr.2 ∈ cvals)) := by
    rw [hcolD_c]
    have hsz : (as.zip bs).map (fun pr : Cell × Cell => decide (pr.2 ∈ cvals)) =
        ((as.zip bs).map Prod.snd).map (fun v => decide (v ∈ cvals)) := by
      rw [List.map_map]
      rfl
    rw [hsz, List.map_snd_zip as bs (le_of_eq hlen)]
  set m1 := (d.colD ccol).map (fun v => decide (v ∈ cvals)) with hm1def
  have hfn : (d.filterRows m1).col? ncol = some (maskFilter as m1) := by
    rw [filterRows_col?, hn]
    rfl
  have hfc : (d.filterRows m1).col? ccol = some (maskFilter bs m1) := by
    rw [filterRows_col?, hb]
    rfl
  have hselect : (d.filterRows m1).select [ncol, ccol] =
      ⟨[(ncol, maskFilter as m1), (ccol, maskFilter bs m1)]⟩ := by
    unfold DataFrame.select
    rw [List.filterMap_cons, List.filterMap_cons, List.filterMap_nil, hfn, hfc]
    rfl
  have hlen' : (maskFilter bs m1).length = (maskFilter as m1).length :=
    maskFilter_length_eq bs as m1 hlen
  have hmask : DataFrame.naMask ⟨[(ncol, maskFilter as m1), (ccol, maskFilter bs m1)]⟩ =
      ((maskFilter as m1).zip (maskFilter bs m1)).map
        (fun pr => !pr.1.isNa && !pr.2.isNa) := by
    show List.zipWith (fun c b => !c.isNa && b) (maskFilter as m1)
        (List.zipWith (fun c b => !c.isNa && b) (maskFilter bs m1)
          (List.replicate (maskFilter as m1).length true)) = _
    rw [← hlen', zipWith_and_replicate, List.zipWith_map_right,
      zipWith_eq_map_zip]
  unfold anovaDataGroup
  rw [← hm1def, hselect]
  unfold DataFrame.dropnaRows
  rw [hmask]
  have h1 : (DataFrame.filterRows ⟨[(ncol, maskFilter as m1), (ccol, maskFilter bs m1)]⟩
      (((maskFilter as m1).zip (maskFilter bs m1)).map
        (fun pr => !pr.1.isNa && !pr.2.isNa))).colD ncol =
      maskFilter (maskFilter as m1) (((maskFilter as m1).zip (maskFilter bs m1)).map
        (fun pr => !pr.1.isNa && !pr.2.isNa)) := by
    simp [DataFrame.filterRows, DataFrame.colD, DataFrame.col?, lookupCol]
  have h2 : (DataFrame.filterRows ⟨[(ncol, maskFilter as m1), (ccol, maskFilter bs m1)]⟩
      (((maskFilter as m1).zip (maskFilter bs m1)).map
        (fun pr => !pr.1.isNa && !pr.2.isNa))).colD ccol =
      maskFilter (maskFilter bs m1) (((maskFilter as m1).zip (maskFilter bs m1)).map
        (fun pr => !pr.1.isNa && !pr.2.isNa)) := by
    simp [DataFrame.filterRows, DataFrame.colD, DataFrame.col?, lookupCol, hnc]
  rw [h1, h2,
    maskFilter_zip (maskFilter as m1) (maskFilter bs m1) _ hlen'.symm,
    maskFilter_map_self, maskFilter_zip as bs m1 hlen.symm, hm1,
    maskFilter_map_self, List.filter_filter]

/-- C3: in a one-way ANOVA call the grouped data consists exactly of the
rows with the categorical value among the selected levels and no missing
value in either column, and — given that the earlier validations pass —
the call fails precisely when fewer than two distinct non-empty groups
remain. -/
theorem anova_filtering_and_group_check (state : AppState) (args : HypoArgs)
    (d : DataFrame) (ncol ccol : String) (cvals series as bs : List Cell)
    (hdf : args.df = some d) (hname : args.hypo_test = "One-way ANOVA")
    (hser : _ensure_numeric_series (some d) args.numeric_col = .ok series)
    (hncol : args.numeric_col = ncol)
    (hc3 : args.cat_col3 = some ccol) (hcc : ccol ∈ d.columns)
    (hvals : args.cat_vals3.isEmpty = false)
    (hcast : castSeries (dtypeOf (d.colD ccol)) args.cat_vals3 = .ok cvals)
    (hn : d.col? ncol = some as) (hb : d.col? ccol = some bs)
    (hlen : bs.length = as.length) (hnc : ncol ≠ ccol) :
    (((anovaDataGroup d ncol ccol cvals).colD ncol).zip
        ((anovaDataGroup d ncol ccol cvals).colD ccol) =
      (as.zip bs).filter (fun pr =>
        (!pr.1.isNa && !pr.2.isNa) && decide (pr.2 ∈ cvals))) ∧
    (((anovaDataGroup d ncol ccol cvals).colD ccol).dedup.length < 2 →
      (run_hypothesis_testing state args).isOk = false) ∧
    (2 ≤ ((anovaDataGroup d ncol ccol cvals).colD ccol).dedup.length →
      ∃ r, run_hypothesis_testing state args = .ok r) := by
  have hrun : run_hypothesis_testing state args =
      match one_way_anova (anovaDataGroup d ncol ccol cvals) ncol ccol with
      | .error e => .error e
      | .ok r => .ok { r with table := _round_table r.table state.display_precision } := by
    unfold run_hypothesis_testing
    rw [hdf]
    dsimp only
    rw [hncol] at hser
    rw [hncol, hser]
    dsimp only
    rw [hname]
    rw [if_neg (by decide : ¬ ("One-way ANOVA" = "One sample Student's t-test"))]
    rw [if_neg (by decide : ¬ ("One-way ANOVA" = "Two samples Student's t-test"))]
    rw [if_neg (by decide : ¬ ("One-way ANOVA" = "Equal variance between two groups"))]
    rw [if_pos (rfl : "One-way ANOVA" = "One-way ANOVA")]
    rw [hc3]
    dsimp only
    rw [if_neg (by simp [hcc] : ¬ (ccol ∉ d.columns))]
    rw [if_neg (by simp [hvals] : ¬ (args.cat_vals3.isEmpty = true))]
    rw [hcast]
  refine ⟨anovaDataGroup_pairs d ncol ccol cvals as bs hn hb hlen hnc, ?_, ?_⟩
  · intro hlt
    rw [hrun]
    unfold one_way_anova
    dsimp only
    rw [if_pos hlt]
    rfl
  · intro hge
    rw [hrun]
    unfold one_way_anova
    dsimp only
    rw [if_neg (Nat.not_lt.mpr hge)]
    exact ⟨_, rfl⟩

/-- C3 witness: on the concrete dataframe with both category levels
selected, two non-empty groups remain and the ANOVA call succeeds. -/
theorem anova_filtering_and_group_check_witness :
    ∃ r, run_hypothesis_testing state4 argsAnova = .ok r :=
  (anova_filtering_and_group_check state4 argsAnova dfHypo "x" "g"
    [Cell.str "a", Cell.str "b"]
    [Cell.num 1, Cell.num 2, Cell.num 3, Cell.num 4]
    [Cell.num 1, Cell.num 2, Cell.num 3, Cell.num 4]
    [Cell.str "a", Cell.str "a", Cell.str "b", Cell.str "b"]
    rfl rfl (by decide) rfl rfl (by decide) (by decide) (by decide)
    (by decide) (by decide) (by decide) (by decide)).2.2 (by decide)

/-- C2 counterexample: on the column `[0, 1]` with requested quantile
1/3 and default display precision 4, the table returned by the
descriptive-statistics controller differs from the full-precision table
computed by the engine — the returned quantile value is 0.3333, not 1/3,
so the controller's output columns are not left unrounded. -/
theorem descriptive_controller_rounds_output :
    (run_descriptive_statistics state4 (some dfDesc) "x" [1 / 3] none none
      none).toOption.isSome = true ∧
    (run_descriptive_statistics state4 (some dfDesc) "x" [1 / 3] none none
      none).toOption ≠
      (compute_descriptive_statistics [0, 1] [1 / 3] none none none).toOption := by
  constructor <;> decide

/-- C2 (amended): for every valid input, the descriptive-statistics
controller returns exactly the engine's full-precision table with the
`Value` and `Bias Corrected` columns rounded to the session display
precision; the engine's own table is unrounded. -/
theorem descriptive_controller_rounds_engine_table (state : AppState)
    (df : Option DataFrame) (column : String) (quantile_probs : List ℚ)
    (trim_alpha : Option ℚ) (winsor_limits : Option (ℚ × ℚ))
    (weights_col : Option String) (t : List DescRow)
    (h : run_descriptive_statistics state df column quantile_probs trim_alpha
      winsor_limits weights_col = .ok t) :
    ∃ d w t₀, df = some d ∧
      compute_descriptive_statistics (toNums (seriesDropna (d.colD column)))
        quantile_probs trim_alpha winsor_limits w = .ok t₀ ∧
      t = t₀.map (fun r =>
        { r with value := roundTo state.display_precision r.value
                 biasCorrected := roundTo state.display_precision r.biasCorrected }) := by
  simp only [run_descriptive_statistics] at h
  repeat' split at h
  all_goals try cases h
  all_goals exact ⟨_, _, _, rfl, by assumption, rfl⟩

/-- C2 witness: the concrete run on `[0, 1]` with quantile 1/3 is the
engine table rounded at 4 decimals. -/
theorem descriptive_controller_rounds_engine_table_witness :
    ∃ d w t₀, (some dfDesc : Option DataFrame) = some d ∧
      compute_descriptive_statistics (toNums (seriesDropna (d.colD "x")))
        [1 / 3] none none w = .ok t₀ ∧
      [(⟨"Count", 2, 2⟩ : DescRow), ⟨"Mean", 1 / 2, 1 / 2⟩,
        ⟨"Std Dev", 1 / 2, 1⟩, ⟨"Quantile", 3333 / 10000, 3333 / 10000⟩] =
      t₀.map (fun r =>
        { r with value := roundTo state4.display_precision r.value
                 biasCorrected := roundTo state4.display_precision r.biasCorrected }) :=
  descriptive_controller_rounds_engine_table state4 (some dfDesc) "x" [1 / 3]
    none none none
    [⟨"Count", 2, 2⟩, ⟨"Mean", 1 / 2, 1 / 2⟩, ⟨"Std Dev", 1 / 2, 1⟩,
      ⟨"Quantile", 3333 / 10000, 3333 / 10000⟩] (by decide)

end Thotsakan
